import Mathlib

/-
Verification of the Alpha Vantage ingestion core against its specification.

Shallow embedding of the Python sources:
  src/src/utils/s3_paths.py        (key scheme: get_s3_key, get_metadata_key,
                                    parse_s3_key, convert_key_format)
  src/src/utils/atomic_s3.py       (AtomicS3.atomic_update)
  src/src/utils/data_processing.py (StockDataProcessor.validate_and_transform,
                                    _run_quality_checks)
  src/src/utils/api_client.py      (AlphaVantageClient._make_api_request)
  src/src/fetch_daily.py           (process_symbol, S3 storage phase)
  src/src/scripts/migrate_s3_data.py (migrate_object, migrate_objects)

Python strings are modelled as `List Char` (`PyStr`); `str.split(sep)` for a
one-character separator is `pySplit`.  Functions that can raise are modelled
with `Option` (`none` = an exception escapes).  Numeric cells are modelled as
`Option ℚ` (`none` = NaN after `pd.to_numeric(errors='coerce')`, which also
covers unparseable input); prices in the relevant comparisons are exact small
decimals, for which rational arithmetic agrees with float arithmetic.
-/

/-- Python strings, modelled as lists of characters. -/
abbrev PyStr := List Char

/-- Abbreviation turning a Lean string literal into the `PyStr` model. -/
def ls (s : String) : PyStr := s.toList

/-- Python `str.split(sep)` for a single-character separator `sep`:
`"".split(sep) = [""]`, and every occurrence of `sep` starts a new field. -/
def pySplit (sep : Char) : List Char → List (List Char)
  | [] => [[]]
  | c :: cs =>
    if c = sep then [] :: pySplit sep cs
    else
      match pySplit sep cs with
      | [] => [[c]]
      | p :: ps => (c :: p) :: ps

/-- Join parts with `'/'` separators; `joinParts [a,b] = a ++ "/" ++ b`. -/
def joinParts : List PyStr → PyStr
  | [] => []
  | [p] => p
  | p :: q :: ps => p ++ '/' :: joinParts (q :: ps)

namespace S3Paths

/-- Result dictionary of `parse_s3_key` (absent dict entries are `none`). -/
structure KeyInfo where
  version : PyStr
  environment : Option PyStr := none
  data_type : Option PyStr := none
  symbol : Option PyStr := none
  key_type : Option PyStr := none
  date : Option PyStr := none
  year : Option PyStr := none
  month : Option PyStr := none
  day : Option PyStr := none
  prefix1 : Option PyStr := none
  key : Option PyStr := none
deriving DecidableEq, Repr

/-- Embedding of `get_s3_key` (src/src/utils/s3_paths.py).  `envMock` models
the ambient `MOCK_MODE` environment variable, consulted only when
`isMock = none`.  Returns `none` when `date.split("-")` does not have exactly
three fields (the tuple unpacking raises `ValueError`).  A present-but-empty
`date` is falsy in Python, so it selects the `full.json` branch. -/
def get_s3_key (symbol : PyStr) (dataType : PyStr) (date : Option PyStr)
    (isLatest : Bool) (isMock : Option Bool) (envMock : Bool) : Option PyStr :=
  let im := isMock.getD envMock
  let envPrefix := if im then ls "test" else ls "prod"
  let basePath := envPrefix ++ ls "/stock/" ++ dataType ++ ['/'] ++ symbol
  if isLatest then
    some (basePath ++ ls "/latest.json")
  else if date.getD [] ≠ [] then
    match pySplit '-' (date.getD []) with
    | [year, month, day] =>
        some (basePath ++ ls "/daily/" ++ year ++ ['/'] ++ month ++ ['/'] ++
          day ++ ls ".json")
    | _ => none
  else
    some (basePath ++ ls "/full.json")

/-- Embedding of `get_metadata_key` (src/src/utils/s3_paths.py). -/
def get_metadata_key (symbol : PyStr) (dataType : PyStr) (isMock : Option Bool)
    (envMock : Bool) : PyStr :=
  let im := isMock.getD envMock
  let envPrefix := if im then ls "test" else ls "prod"
  envPrefix ++ ls "/stock/" ++ dataType ++ ['/'] ++ symbol ++ ls "/metadata.json"

/-- Body of `parse_s3_key` (src/src/utils/s3_paths.py) over the already-split
`parts = s3_key.split("/")`; `s3Key` itself is only needed for the `key` entry
of the unknown-format dictionary.  `none` models an uncaught exception: the V2
daily branch is guarded by `len(parts) >= 7` but reads `parts[7]`, so a key of
exactly 7 parts whose fifth part is `daily` raises `IndexError`.  All other
subscript accesses are covered by the length guards, hence use `getD`. -/
def parseWithParts (parts : List PyStr) (s3Key : PyStr) : Option KeyInfo :=
  if 5 ≤ parts.length ∧ parts.getD 1 [] = ls "stock" then
    let env := parts.getD 0 []
    let dataType := parts.getD 2 []
    let symbol := parts.getD 3 []
    if 7 ≤ parts.length ∧ parts.getD 4 [] = ls "daily" then
      match parts.get? 7 with
      | none => none
      | some p7 =>
          let year := parts.getD 5 []
          let month := parts.getD 6 []
          let day := (pySplit '.' p7).getD 0 []
          some { version := ls "v2", environment := some env,
                 data_type := some dataType, symbol := some symbol,
                 key_type := some (ls "daily"),
                 date := some (year ++ '-' :: month ++ '-' :: day),
                 year := some year, month := some month, day := some day }
    else if parts.getD 4 [] = ls "latest.json" then
      some { version := ls "v2", environment := some env,
             data_type := some dataType, symbol := some symbol,
             key_type := some (ls "latest") }
    else if parts.getD 4 [] = ls "full.json" then
      some { version := ls "v2", environment := some env,
             data_type := some dataType, symbol := some symbol,
             key_type := some (ls "full") }
    else if parts.getD 4 [] = ls "metadata.json" then
      some { version := ls "v2", environment := some env,
             data_type := some dataType, symbol := some symbol,
             key_type := some (ls "metadata") }
    else
      some { version := ls "unknown", key := some s3Key }
  else if 3 ≤ parts.length ∧ parts.getD 0 [] = ls "daily" then
    let symbol := parts.getD 1 []
    let date := (pySplit '.' (parts.getD 2 [])).getD 0 []
    some { version := ls "lambda", symbol := some symbol,
           key_type := some (ls "daily"), date := some date }
  else if 3 ≤ parts.length ∧ (ls "stock-data").isPrefixOf (parts.getD 0 []) then
    let pre := parts.getD 0 []
    let symbol := parts.getD 1 []
    if 4 ≤ parts.length ∧ parts.getD 2 [] = ls "daily" then
      let date := (pySplit '.' (parts.getD 3 [])).getD 0 []
      some { version := ls "v1", prefix1 := some pre, symbol := some symbol,
             key_type := some (ls "daily"), date := some date }
    else if parts.getD 2 [] = ls "latest.json" then
      some { version := ls "v1", prefix1 := some pre, symbol := some symbol,
             key_type := some (ls "latest") }
    else if parts.getD 2 [] = ls "full.json" then
      some { version := ls "v1", prefix1 := some pre, symbol := some symbol,
             key_type := some (ls "full") }
    else if parts.getD 2 [] = ls "metadata.json" then
      some { version := ls "v1", prefix1 := some pre, symbol := some symbol,
             key_type := some (ls "metadata") }
    else
      some { version := ls "unknown", key := some s3Key }
  else
    some { version := ls "unknown", key := some s3Key }

/-- Embedding of `parse_s3_key` (src/src/utils/s3_paths.py):
`parts = s3_key.split("/")`, then the branch cascade of `parseWithParts`. -/
def parse_s3_key (s3Key : PyStr) : Option KeyInfo :=
  parseWithParts (pySplit '/' s3Key) s3Key

/-- Embedding of `convert_key_format` (src/src/utils/s3_paths.py).  `none`
models a raised exception (`ValueError`, or the `IndexError` escaping from
`parse_s3_key`).  `dataTypeArg`, `isMockArg`, `prefixArg` model the optional
`kwargs`; note the source defaults `data_type` to `"raw"` and does NOT read
it back from the parsed key, while `is_mock` defaults to
`key_info.get("environment") == "test"`. -/
def convert_key_format (s3Key : PyStr) (targetVersion : PyStr)
    (dataTypeArg : Option PyStr) (isMockArg : Option Bool)
    (prefixArg : Option PyStr) (envMock : Bool) : Option PyStr :=
  match parse_s3_key s3Key with
  | none => none
  | some keyInfo =>
    -- Python truthiness: `if not symbol or not key_type: raise ValueError`
    if keyInfo.symbol.getD [] = [] ∨ keyInfo.key_type.getD [] = [] then none
    else
      let symbol := keyInfo.symbol.getD []
      let keyType := keyInfo.key_type.getD []
      if targetVersion = ls "v2" then
        let dataType := dataTypeArg.getD (ls "raw")
        let isMock := isMockArg.getD (keyInfo.environment = some (ls "test"))
        if keyType = ls "daily" then
          if keyInfo.date.getD [] = [] then none
          else get_s3_key symbol dataType (some (keyInfo.date.getD [])) false
            (some isMock) envMock
        else if keyType = ls "latest" then
          get_s3_key symbol dataType none true (some isMock) envMock
        else if keyType = ls "full" then
          get_s3_key symbol dataType none false (some isMock) envMock
        else if keyType = ls "metadata" then
          some (get_metadata_key symbol dataType (some isMock) envMock)
        else none
      else if targetVersion = ls "lambda" then
        if keyType = ls "daily" then
          if keyInfo.date.getD [] = [] then none
          else some (ls "daily/" ++ symbol ++ ['/'] ++ keyInfo.date.getD [] ++
            ls ".json")
        else none
      else if targetVersion = ls "v1" then
        let pre := prefixArg.getD (ls "stock-data-mock")
        if keyType = ls "daily" then
          if keyInfo.date.getD [] = [] then none
          else some (pre ++ ['/'] ++ symbol ++ ls "/daily/" ++
            keyInfo.date.getD [] ++ ls ".json")
        else if keyType = ls "latest" then
          some (pre ++ ['/'] ++ symbol ++ ls "/latest.json")
        else if keyType = ls "full" then
          some (pre ++ ['/'] ++ symbol ++ ls "/full.json")
        else if keyType = ls "metadata" then
          some (pre ++ ['/'] ++ symbol ++ ls "/metadata.json")
        else none
      else none

end S3Paths

namespace DataProcessing

/-- One row of the daily time series after `pd.to_numeric(errors='coerce')`:
each cell is `some q` for a parsed numeric value and `none` for NaN (a
missing or unparseable field). -/
structure BarRow where
  openPrice : Option ℚ
  highPrice : Option ℚ
  lowPrice : Option ℚ
  closePrice : Option ℚ
  volume : Option ℚ
deriving DecidableEq, Repr

/-- A pandas-style comparison on a cell: comparisons against NaN are false. -/
def cellP (p : ℚ → Bool) : Option ℚ → Bool
  | some x => p x
  | none => false

/-- Insert into an ascending-sorted list of rationals. -/
def insortQ (x : ℚ) : List ℚ → List ℚ
  | [] => [x]
  | y :: ys => if x ≤ y then x :: y :: ys else y :: insortQ x ys

/-- Ascending insertion sort on rationals (the sorted order a quantile uses). -/
def isortQ : List ℚ → List ℚ
  | [] => []
  | x :: xs => insortQ x (isortQ xs)

/-- Pandas `Series.quantile(0.99)` with the default linear interpolation:
with the non-NaN values sorted ascending as `s` of length `n`, the rank is
`h = 0.99 * (n - 1)`, and the result is `s[⌊h⌋] + (h - ⌊h⌋) * (s[⌊h⌋+1] - s[⌊h⌋])`
(the upper index is clamped; its weight is zero whenever it is out of range). -/
def quantile99 (xs : List ℚ) : ℚ :=
  let s := isortQ xs
  let n := s.length
  let i := 99 * (n - 1) / 100
  let g : ℚ := ((99 * (n - 1) : ℕ) : ℚ) / 100 - (i : ℕ)
  let xi := s.getD i 0
  let xi1 := s.getD (i + 1) xi
  xi + g * (xi1 - xi)

/-- Extract one numeric column, skipping NaN cells (pandas aggregations and
`quantile` use `skipna=True`). -/
def colOf (rows : List BarRow) (f : BarRow → Option ℚ) : List ℚ :=
  rows.filterMap f

/-- The per-column outlier test of `_run_quality_checks`:
`threshold = df[col].quantile(0.99) * 10`, outliers are values `> threshold`. -/
def colHasOutlier (rows : List BarRow) (f : BarRow → Option ℚ) : Bool :=
  let threshold := quantile99 (colOf rows f) * 10
  rows.any (fun r => cellP (fun x => threshold < x) (f r))

/-- Does any cell of the row hold NaN (`df.isnull().any().any()` row-wise)? -/
def rowHasNull (r : BarRow) : Bool :=
  r.openPrice.isNone || r.highPrice.isNone || r.lowPrice.isNone ||
    r.closePrice.isNone || r.volume.isNone

/-- The four price columns, in the order the source's outlier loop visits
them (`for col in ["open", "high", "low", "close"]`). -/
def priceCols : List (BarRow → Option ℚ) :=
  [BarRow.openPrice, BarRow.highPrice, BarRow.lowPrice, BarRow.closePrice]

/-- Embedding of `StockDataProcessor._run_quality_checks`
(src/src/utils/data_processing.py), mirroring the source's sequence of
short-circuiting checks: missing values, zero volume, negative prices in any
of the four price columns, the 10x-99th-percentile outlier guard per price
column, then the three price-consistency checks. -/
def run_quality_checks (rows : List BarRow) : Bool :=
  if rows.any rowHasNull then false
  else if rows.any (fun r => cellP (fun x => x = 0) r.volume) then false
  else if rows.any (fun r =>
      priceCols.any (fun f => cellP (fun x => x < 0) (f r))) then false
  else if priceCols.any (fun f => colHasOutlier rows f) then false
  else if rows.any (fun r =>
      cellP (fun lo => cellP (fun hi => hi < lo) r.highPrice) r.lowPrice) then
    false
  else if rows.any (fun r =>
      cellP (fun c => cellP (fun hi => hi < c) r.highPrice) r.closePrice ||
      cellP (fun c => cellP (fun lo => c < lo) r.lowPrice) r.closePrice) then
    false
  else if rows.any (fun r =>
      cellP (fun o => cellP (fun hi => hi < o) r.highPrice) r.openPrice ||
      cellP (fun o => cellP (fun lo => o < lo) r.lowPrice) r.openPrice) then
    false
  else true

/-- Insert into a date-descending-sorted series. -/
def insortRowDesc (x : ℤ × BarRow) : List (ℤ × BarRow) → List (ℤ × BarRow)
  | [] => [x]
  | y :: ys => if y.1 ≤ x.1 then x :: y :: ys else y :: insortRowDesc x ys

/-- Sort the series by date descending (`df.sort_index(ascending=False)`;
the date index is modelled as an integer day number). -/
def sortRowsDesc : List (ℤ × BarRow) → List (ℤ × BarRow)
  | [] => []
  | x :: xs => insortRowDesc x (sortRowsDesc xs)

/-- Embedding of `StockDataProcessor.validate_and_transform`
(src/src/utils/data_processing.py), returning the boolean validation verdict:
an empty `Time Series (Daily)` is rejected, otherwise the series is sorted by
date descending and `_run_quality_checks` decides.  The input is the time
series as a list of (date, row) pairs post numeric coercion. -/
def validate_and_transform (series : List (ℤ × BarRow)) : Bool :=
  if series.isEmpty then false
  else run_quality_checks ((sortRowsDesc series).map Prod.snd)

/-- Dates strictly monotonically descending (pairwise adjacent). -/
def strictDesc : List ℤ → Bool
  | [] => true
  | [_] => true
  | x :: y :: ys => decide (y < x) && strictDesc (y :: ys)

/-- Modelled from the claim's words, for the refinement comparison of C5: the
seven checks as the claim states them — non-empty; numeric fields parseable
and no null/missing field (both are `some` cells here); dates strictly
monotonic descending (of the chronologically sorted series); no zero-volume
row; no row with low < 0 and no row with high above 10x the 99th percentile
of the HIGH column only; and low ≤ high with open, close inside [low, high]. -/
def claimSevenChecks (series : List (ℤ × BarRow)) : Bool :=
  let sorted := sortRowsDesc series
  let rows := sorted.map Prod.snd
  !series.isEmpty &&
  !rows.any rowHasNull &&
  strictDesc (sorted.map Prod.fst) &&
  !rows.any (fun r => cellP (fun x => x = 0) r.volume) &&
  !rows.any (fun r => cellP (fun x => x < 0) r.lowPrice) &&
  !colHasOutlier rows BarRow.highPrice &&
  !rows.any (fun r =>
      cellP (fun lo => cellP (fun hi => hi < lo) r.highPrice) r.lowPrice ||
      cellP (fun c => cellP (fun hi => hi < c) r.highPrice) r.closePrice ||
      cellP (fun c => cellP (fun lo => c < lo) r.lowPrice) r.closePrice ||
      cellP (fun o => cellP (fun hi => hi < o) r.highPrice) r.openPrice ||
      cellP (fun o => cellP (fun lo => o < lo) r.lowPrice) r.openPrice)

/-- The quiet row of the C5 counterexample series: open 1, high 100,
low 1, close 1, volume 1. -/
def quietRow : BarRow :=
  ⟨some 1, some 100, some 1, some 1, some 1⟩

/-- The spike row of the C5 counterexample series: open 100 (an outlier of
the open column, but not of the high column), high 100, low 1, close 1,
volume 1. -/
def spikeRow : BarRow :=
  ⟨some 100, some 100, some 1, some 1, some 1⟩

/-- The C5 counterexample series: 91 quiet days followed by one spike day,
dates 92 down to 1.  Open column: ninety-one 1s and one 100; its 99th
percentile is 1 + 0.09 * 99 = 9.91, so 100 > 99.1 trips the open-column
outlier guard.  High column: all 100, no outlier — so the claim's
high-column-only guard passes. -/
def spikeSeries : List (ℤ × BarRow) :=
  ((List.range 91).map (fun i => ((92 - i : ℤ), quietRow))) ++ [(1, spikeRow)]

end DataProcessing

namespace AtomicS3

/-- The S3 bucket contents: each key holds a whole object or nothing. -/
def Store (V : Type) := String → Option V

/-- Overwrite one key of the store. -/
def setStore {V : Type} (s : Store V) (k : String) (v : Option V) : Store V :=
  fun k' => if k' = k then v else s k'

/-- Success/failure of the raw S3 client calls made by one `atomic_update`
run: `copyOk` — does `copy_object` return, `deleteOk` — does the main-path
`delete_object` return, `cleanupOk` — does the best-effort delete in the
`except` handler return. -/
structure OpEnv where
  copyOk : Bool
  deleteOk : Bool
  cleanupOk : Bool
deriving DecidableEq, Repr

/-- The temporary key `f"{key}.tmp.{uuid.uuid4()}"`. -/
def tmpKeyOf (key uuid : String) : String := key ++ ".tmp." ++ uuid

/-- The cleanup block of `atomic_update`'s `except` handler: delete the
temporary object if it exists; a failing cleanup leaves it in place (the
inner `except` only logs). -/
def cleanupTmp {V : Type} (env : OpEnv) (s : Store V) (tmp : String) : Store V :=
  if (s tmp).isSome && env.cleanupOk then setStore s tmp none else s

/-- Embedding of `AtomicS3.atomic_update` (src/src/utils/atomic_s3.py).
Returns (reported success, resulting store).  `updateFunc` is the update
function called on the temporary key (it returns its own success flag and the
store it leaves behind).  The copy step reads the temporary object and
publishes its value at `key`; a missing temporary object or a failing copy
raises, landing in the `except` handler (cleanup, then report failure).  A
failing main-path delete also raises into the same handler — after the copy
has already been published. -/
def atomic_update {V : Type} (mockMode : Bool) (env : OpEnv) (uuid : String)
    (updateFunc : String → Store V → Bool × Store V)
    (s : Store V) (key : String) : Bool × Store V :=
  if mockMode then (true, s)
  else
    let tmp := tmpKeyOf key uuid
    let r := updateFunc tmp s
    if r.1 = false then (false, r.2)
    else
      match r.2 tmp with
      | none => (false, cleanupTmp env r.2 tmp)
      | some w =>
        if env.copyOk = false then (false, cleanupTmp env r.2 tmp)
        else
          let s2 := setStore r.2 key (some w)
          if env.deleteOk = false then (false, cleanupTmp env s2 tmp)
          else (true, setStore s2 tmp none)

/-- The update function used by `atomic_json_update`: `S3Storage.save_json`
performs one whole-object `put_object`, which either writes the object and
returns `True`, or raises (caught, returning `False`) leaving the store
unchanged — `putOk` selects which. -/
def atomicPut {V : Type} (putOk : Bool) (v : V) :
    String → Store V → Bool × Store V :=
  fun tmp s => if putOk then (true, setStore s tmp (some v)) else (false, s)

end AtomicS3

namespace ApiClient

/-- Outcome of one HTTP attempt of `_make_api_request`, as seen by its
`try/except` arms: a fully validated response; a transport failure
(`requests.exceptions.RequestException`: timeout, connection error, non-2xx
status); a response-validation failure (the `ValueError` raised when
`"Time Series (Daily)"` is absent or the sample day's field set differs from
the five expected keys); or any other unexpected exception. -/
inductive Outcome (α : Type) where
  | success (d : α)
  | transport
  | validationFail
  | otherError
deriving DecidableEq, Repr

/-- Is the outcome one the source retries (transport or unexpected error)? -/
def Outcome.isTransient {α : Type} : Outcome α → Bool
  | .transport => true
  | .otherError => true
  | _ => false

/-- The retry loop of `_make_api_request`, fuelled by the remaining allowed
attempts (`fuel = max_retries + 1 - retry_count` at entry).  Returns
(result, number of attempts performed, backoff sleeps in order).  A success
returns the data; a validation failure returns `None` at once (`return None`
in the `except ValueError` arm); transport and unexpected errors fall through
to the backoff, which sleeps `2 ** retry_count + uniform(0, 1)` seconds —
the jitter draw is modelled by `jitter` — only while `retry_count <
max_retries`. -/
def apiLoop {α : Type} (attempts : ℕ → Outcome α) (jitter : ℕ → ℚ)
    (maxRetries : ℕ) : ℕ → ℕ → Option α × ℕ × List ℚ
  | 0, _ => (none, 0, [])
  | fuel + 1, rc =>
    match attempts rc with
    | .success d => (some d, 1, [])
    | .validationFail => (none, 1, [])
    | .transport =>
      let rest := apiLoop attempts jitter maxRetries fuel (rc + 1)
      (rest.1, rest.2.1 + 1,
        (if rc < maxRetries then [2 ^ rc + jitter rc] else []) ++ rest.2.2)
    | .otherError =>
      let rest := apiLoop attempts jitter maxRetries fuel (rc + 1)
      (rest.1, rest.2.1 + 1,
        (if rc < maxRetries then [2 ^ rc + jitter rc] else []) ++ rest.2.2)

/-- Embedding of `AlphaVantageClient._make_api_request`
(src/src/utils/api_client.py): run the `while retry_count <= max_retries`
loop from `retry_count = 0`; when every attempt has failed the loop exits
and the call returns `None`. -/
def make_api_request {α : Type} (attempts : ℕ → Outcome α) (jitter : ℕ → ℚ)
    (maxRetries : ℕ) : Option α × ℕ × List ℚ :=
  apiLoop attempts jitter maxRetries (maxRetries + 1) 0

end ApiClient

namespace FetchDaily

/-- The eight S3 writes of `process_symbol`'s S3 storage phase, in program
order. -/
inductive WriteKey where
  | rawLatest | rawDaily | rawFull | rawMetadata
  | procLatest | procDaily | procFull | procMetadata
deriving DecidableEq, Repr

/-- Embedding of the `config.save_to_s3` branch of `process_symbol`
(src/src/fetch_daily.py): `outcome` gives each `atomic_json_update`'s
result.  The raw-latest write failing returns `False` immediately; every
later write is attempted unconditionally, its failure only logged as a
warning, and the phase ends reporting success.  Returns (reported success,
keys whose write was attempted, in order). -/
def saveToS3Phase (outcome : WriteKey → Bool) : Bool × List WriteKey :=
  let attempted := [WriteKey.rawLatest]
  if outcome WriteKey.rawLatest = false then (false, attempted)
  else
    let attempted := attempted ++ [WriteKey.rawDaily]
    let attempted := attempted ++ [WriteKey.rawFull]
    let attempted := attempted ++ [WriteKey.rawMetadata]
    let attempted := attempted ++ [WriteKey.procLatest]
    let attempted := attempted ++ [WriteKey.procDaily]
    let attempted := attempted ++ [WriteKey.procFull]
    let attempted := attempted ++ [WriteKey.procMetadata]
    (true, attempted)

/-- All eight storage keys in program order. -/
def allWrites : List WriteKey :=
  [WriteKey.rawLatest, WriteKey.rawDaily, WriteKey.rawFull,
   WriteKey.rawMetadata, WriteKey.procLatest, WriteKey.procDaily,
   WriteKey.procFull, WriteKey.procMetadata]

end FetchDaily

namespace Migration

open S3Paths

/-- Success/failure of the raw S3 calls the migration makes, per key. -/
structure MigEnv where
  copyOk : PyStr → PyStr → Bool
  deleteOk : PyStr → Bool

/-- Embedding of `copy_s3_object` (src/src/scripts/migrate_s3_data.py):
a dry run only logs and reports success. -/
def copy_s3_object (env : MigEnv) (dryRun : Bool) (src tgt : PyStr) : Bool :=
  if dryRun then true else env.copyOk src tgt

/-- Embedding of `delete_s3_object` (src/src/scripts/migrate_s3_data.py). -/
def delete_s3_object (env : MigEnv) (dryRun : Bool) (k : PyStr) : Bool :=
  if dryRun then true else env.deleteOk k

/-- Embedding of `migrate_object` (src/src/scripts/migrate_s3_data.py).
Its whole body sits inside `try ... except Exception: return False, None`,
so every exception — including the `IndexError` a 7-part daily-shaped key
raises in `parse_s3_key`, and the `ValueError`s of `convert_key_format` —
becomes `(false, none)`.  A failed source delete after a successful copy is
only a warning: the migration still reports success. -/
def migrate_object (env : MigEnv) (sourceKey : PyStr)
    (targetVersion dataType : PyStr) (isMock : Option Bool)
    (deleteSource dryRun envMock : Bool) : Bool × Option PyStr :=
  match parse_s3_key sourceKey with
  | none => (false, none)
  | some keyInfo =>
    if keyInfo.version = ls "unknown" then (false, none)
    else if keyInfo.version = targetVersion then (true, some sourceKey)
    else
      match convert_key_format sourceKey targetVersion (some dataType) isMock
          none envMock with
      | none => (false, none)
      | some targetKey =>
        if copy_s3_object env dryRun sourceKey targetKey then
          if deleteSource then
            if delete_s3_object env dryRun sourceKey then (true, some targetKey)
            else (true, some targetKey)
          else (true, some targetKey)
        else (false, none)

/-- Aggregate statistics returned by `migrate_objects`. -/
structure MigStats where
  total : ℕ
  success : ℕ
  failed : ℕ
  skipped : ℕ
  migratedKeys : List (PyStr × PyStr)
deriving DecidableEq, Repr

/-- The per-key loop of `migrate_objects`.  The loop's own
`parse_s3_key(source_key)` call is NOT inside any `try`, so a key whose parse
raises aborts the whole batch (`none`).  Unknown-format keys and keys already
at the target version are counted skipped; otherwise `migrate_object` decides
success/failure, and a successful migration whose target differs from the
source is recorded in `migrated_keys`. -/
def migLoop (env : MigEnv) (targetVersion dataType : PyStr)
    (isMock : Option Bool) (deleteSource dryRun envMock : Bool) :
    List PyStr → MigStats → Option MigStats
  | [], acc => some acc
  | k :: rest, acc =>
    match parse_s3_key k with
    | none => none
    | some keyInfo =>
      if keyInfo.version = ls "unknown" then
        migLoop env targetVersion dataType isMock deleteSource dryRun envMock
          rest { acc with skipped := acc.skipped + 1 }
      else if keyInfo.version = targetVersion then
        migLoop env targetVersion dataType isMock deleteSource dryRun envMock
          rest { acc with skipped := acc.skipped + 1 }
      else
        let r := migrate_object env k targetVersion dataType isMock
          deleteSource dryRun envMock
        if r.1 then
          let pairs := acc.migratedKeys ++
            (if r.2 ≠ some k then [(k, r.2.getD [])] else [])
          migLoop env targetVersion dataType isMock deleteSource dryRun envMock
            rest { acc with success := acc.success + 1, migratedKeys := pairs }
        else
          migLoop env targetVersion dataType isMock deleteSource dryRun envMock
            rest { acc with failed := acc.failed + 1 }

/-- Embedding of `migrate_objects` (src/src/scripts/migrate_s3_data.py):
an empty listing returns zeroed statistics at once; otherwise the loop runs
over the full listing and `total` is the number of listed keys. -/
def migrate_objects (env : MigEnv) (objects : List PyStr)
    (targetVersion dataType : PyStr) (isMock : Option Bool)
    (deleteSource dryRun envMock : Bool) : Option MigStats :=
  if objects = [] then some ⟨0, 0, 0, 0, []⟩
  else migLoop env targetVersion dataType isMock deleteSource dryRun envMock
    objects ⟨objects.length, 0, 0, 0, []⟩

/-- Is a parsed key one the migration loop skips (unknown format or already
at the target version)? -/
def skipsKey (targetVersion : PyStr) (k : PyStr) : Bool :=
  match parse_s3_key k with
  | none => false
  | some keyInfo =>
    keyInfo.version = ls "unknown" || keyInfo.version = targetVersion

/-- A concrete listing exercising all three loop outcomes: a V1 key that
migrates, an unrecognized key, and a key already at V2. -/
def sampleListing : List PyStr :=
  [ls "stock-data-mock/NVDA/latest.json", ls "garbage",
   ls "prod/stock/raw/NVDA/latest.json"]

/-- A store environment where every raw S3 call succeeds. -/
def allOkEnv : MigEnv := ⟨fun _ _ => true, fun _ => true⟩

end Migration

namespace S3Paths

/-- The four key types the current (V2) layout produces. -/
inductive V2Kind where
  | latest | full | daily | metadata
deriving DecidableEq, Repr

/-- The V2 key the key scheme produces for each key type, straight from
`get_s3_key` / `get_metadata_key`; the daily date is the string
`{y}-{m}-{d}`. -/
def v2KeyFor (kind : V2Kind) (symbol dataType : PyStr) (y m d : PyStr)
    (isMock envMock : Bool) : Option PyStr :=
  match kind with
  | .latest => get_s3_key symbol dataType none true (some isMock) envMock
  | .full => get_s3_key symbol dataType none false (some isMock) envMock
  | .daily => get_s3_key symbol dataType (some (y ++ '-' :: m ++ '-' :: d))
      false (some isMock) envMock
  | .metadata => some (get_metadata_key symbol dataType (some isMock) envMock)

end S3Paths

namespace DataProcessing

/-- The sorted row sequence `validate_and_transform` runs its checks over. -/
def rowsOf (series : List (ℤ × BarRow)) : List BarRow :=
  (sortRowsDesc series).map Prod.snd

/-- No cell of the row is NaN. -/
def RowComplete (r : BarRow) : Prop :=
  r.openPrice ≠ none ∧ r.highPrice ≠ none ∧ r.lowPrice ≠ none ∧
    r.closePrice ≠ none ∧ r.volume ≠ none

/-- The acceptance condition of the quality gate, stated declaratively: the
series is non-empty, and over the chronologically sorted rows there is no
missing cell, no zero volume, no negative value in any of the four price
columns, no value in any of the four price columns above ten times that same
column's 99th percentile, and every row is internally consistent
(low ≤ open, close, high and open, close ≤ high). -/
def SpecAccept (series : List (ℤ × BarRow)) : Prop :=
  series ≠ [] ∧
  (∀ r ∈ rowsOf series, RowComplete r) ∧
  (∀ r ∈ rowsOf series, r.volume ≠ some 0) ∧
  (∀ r ∈ rowsOf series, ∀ f ∈ priceCols, ∀ x, f r = some x → 0 ≤ x) ∧
  (∀ f ∈ priceCols, ∀ r ∈ rowsOf series, ∀ x, f r = some x →
    x ≤ quantile99 (colOf (rowsOf series) f) * 10) ∧
  (∀ r ∈ rowsOf series, ∀ lo hi, r.lowPrice = some lo → r.highPrice = some hi →
    lo ≤ hi) ∧
  (∀ r ∈ rowsOf series,
    (∀ hi c, r.highPrice = some hi → r.closePrice = some c → c ≤ hi) ∧
    (∀ lo c, r.lowPrice = some lo → r.closePrice = some c → lo ≤ c)) ∧
  (∀ r ∈ rowsOf series,
    (∀ hi o, r.highPrice = some hi → r.openPrice = some o → o ≤ hi) ∧
    (∀ lo o, r.lowPrice = some lo → r.openPrice = some o → lo ≤ o))

end DataProcessing

namespace ApiClient

/-- Witness attempt schedule: a transport failure, then a response whose
sample day is missing a field (a validation failure). -/
def sampleAttempts : ℕ → Outcome ℕ :=
  fun i => if i = 1 then Outcome.validationFail else Outcome.transport

/-- Witness jitter draw: the uniform(0, 1) sample is 0 every time. -/
def zeroJitter : ℕ → ℚ := fun _ => 0

end ApiClient

section Theorems

open S3Paths DataProcessing AtomicS3 ApiClient FetchDaily Migration

/-! Helper lemmas (shared; none of these is a claim's theorem). -/

theorem setStore_same {V : Type} (s : Store V) (k : String) (v : Option V) :
    setStore s k v k = v := by
  simp [setStore]

theorem setStore_other {V : Type} (s : Store V) (k : String) (v : Option V)
    (k' : String) (h : k' ≠ k) : setStore s k v k' = s k' := by
  simp [setStore, h]

theorem tmpKeyOf_ne (key uuid : String) : tmpKeyOf key uuid ≠ key := by
  intro h
  have hlen := congrArg String.length h
  have h5 : (".tmp." : String).length = 5 := rfl
  simp only [tmpKeyOf, String.length_append, h5] at hlen
  omega

/-! Claim theorems. -/

/-- C9: with MOCK_MODE true at construction, `atomic_update` reports success
for every key, payload and update function while performing no store
operation at all: the store it returns is the store it was given. -/
theorem c9_mock_mode_frame {V : Type} (env : OpEnv) (uuid : String)
    (updateFunc : String → Store V → Bool × Store V)
    (s : Store V) (key : String) :
    atomic_update true env uuid updateFunc s key = (true, s) := rfl

/-- C10: `get_s3_key` with `is_latest = True` ignores the date argument
entirely — any two date arguments (absent, well-formed, or arbitrary) give
the same key, namely the `latest.json` key of the symbol's hierarchy. -/
theorem c10_latest_ignores_date (symbol dataType : PyStr)
    (isMock : Option Bool) (envMock : Bool) (date date' : Option PyStr) :
    get_s3_key symbol dataType date true isMock envMock
      = get_s3_key symbol dataType date' true isMock envMock ∧
    get_s3_key symbol dataType date true isMock envMock
      = some ((if isMock.getD envMock then ls "test" else ls "prod") ++
          ls "/stock/" ++ dataType ++ ['/'] ++ symbol ++ ls "/latest.json") :=
  ⟨rfl, rfl⟩

/-- C2: if the initial write of the temporary object fails (the update
function reports failure without having written, as `save_json`'s atomic
`put_object` does), `atomic_update` returns failure, the store is exactly as
before, hence nothing exists at the (fresh) temporary key and the value at
the target key is unchanged. -/
theorem c2_put_failure_leaves_store {V : Type} (env : OpEnv) (uuid : String)
    (v : V) (s : Store V) (key : String)
    (hfresh : s (tmpKeyOf key uuid) = none) :
    atomic_update false env uuid (atomicPut false v) s key = (false, s) ∧
    (atomic_update false env uuid (atomicPut false v) s key).2
      (tmpKeyOf key uuid) = none ∧
    (atomic_update false env uuid (atomicPut false v) s key).2 key = s key := by
  refine ⟨rfl, ?_, rfl⟩
  exact hfresh

/-- C2 witness: the theorem applied at a fresh-key empty store. -/
theorem c2_put_failure_leaves_store_witness :
    ((fun _ => none : Store ℕ) (tmpKeyOf "k" "u") = none) ∧
    (atomic_update false ⟨true, true, true⟩ "u" (atomicPut false (0 : ℕ))
        (fun _ => none) "k" = (false, fun _ => none) ∧
      (atomic_update false ⟨true, true, true⟩ "u" (atomicPut false (0 : ℕ))
        (fun _ => none) "k").2 (tmpKeyOf "k" "u") = none ∧
      (atomic_update false ⟨true, true, true⟩ "u" (atomicPut false (0 : ℕ))
        (fun _ => none) "k").2 "k" = (fun _ => none : Store ℕ) "k") :=
  ⟨rfl, c2_put_failure_leaves_store ⟨true, true, true⟩ "u" 0 _ "k" rfl⟩

/-- C1 counterexample: with the temporary write and the copy both succeeding
and the temp delete failing, `atomic_update` returns FAILURE (the delete's
exception lands in the catch-all handler), although the new value has already
been published at the target key — refuting the claim that a delete failure
after a successful copy leaves the operation successful. -/
theorem c1_counterexample_delete_failure_fails_call :
    (atomic_update false ⟨true, false, false⟩ "u" (atomicPut true (0 : ℕ))
      (fun _ => none) "k").1 = false ∧
    (atomic_update false ⟨true, false, false⟩ "u" (atomicPut true (0 : ℕ))
      (fun _ => none) "k").2 "k" = some 0 := by
  constructor <;> decide

/-- C1 amended: when the temporary write and the copy succeed and the delete
of the temporary object then fails, `atomic_update` returns failure even
though the new value is already published at the target key; the `except`
handler's best-effort cleanup removes the temporary object if it succeeds and
otherwise leaves it as an orphan. -/
theorem c1_amended_delete_failure {V : Type} (env : OpEnv) (uuid : String)
    (v : V) (s : Store V) (key : String)
    (hcopy : env.copyOk = true) (hdel : env.deleteOk = false) :
    (atomic_update false env uuid (atomicPut true v) s key).1 = false ∧
    (atomic_update false env uuid (atomicPut true v) s key).2 key = some v ∧
    (env.cleanupOk = true →
      (atomic_update false env uuid (atomicPut true v) s key).2
        (tmpKeyOf key uuid) = none) ∧
    (env.cleanupOk = false →
      (atomic_update false env uuid (atomicPut true v) s key).2
        (tmpKeyOf key uuid) = some v) := by
  obtain ⟨co, de, cl⟩ := env
  simp only at hcopy hdel
  subst hcopy hdel
  have htmp := tmpKeyOf_ne key uuid
  simp only [atomic_update, atomicPut, if_true, if_false, Bool.true_eq_false,
    if_neg (by simp : ¬(true = false)), setStore_same, cleanupTmp]
  cases cl <;>
    simp [setStore_same, setStore_other _ _ _ _ htmp,
      setStore_other _ _ _ _ (Ne.symm htmp)]

/-- C1 amended witness: the amended theorem applied at an empty store with a
failing cleanup, leaving the orphan behind. -/
theorem c1_amended_delete_failure_witness :
    ((⟨true, false, false⟩ : OpEnv).copyOk = true ∧
     (⟨true, false, false⟩ : OpEnv).deleteOk = false) ∧
    ((atomic_update false ⟨true, false, false⟩ "u" (atomicPut true (7 : ℕ))
        (fun _ => none) "k").1 = false ∧
      (atomic_update false ⟨true, false, false⟩ "u" (atomicPut true (7 : ℕ))
        (fun _ => none) "k").2 "k" = some 7 ∧
      ((⟨true, false, false⟩ : OpEnv).cleanupOk = true →
        (atomic_update false ⟨true, false, false⟩ "u" (atomicPut true (7 : ℕ))
          (fun _ => none) "k").2 (tmpKeyOf "k" "u") = none) ∧
      ((⟨true, false, false⟩ : OpEnv).cleanupOk = false →
        (atomic_update false ⟨true, false, false⟩ "u" (atomicPut true (7 : ℕ))
          (fun _ => none) "k").2 (tmpKeyOf "k" "u") = some 7)) :=
  ⟨⟨rfl, rfl⟩, c1_amended_delete_failure ⟨true, false, false⟩ "u" 7
    (fun _ => none) "k" rfl rfl⟩

/-- C7: in the S3 storage phase of `process_symbol`, a failing raw-latest
write aborts the symbol with failure before any other write is attempted,
while when the raw-latest write succeeds the phase attempts all eight writes
and reports success regardless of the outcomes of the seven secondary
writes. -/
theorem c7_latest_gates_secondary (outcome : WriteKey → Bool) :
    (outcome WriteKey.rawLatest = false →
      saveToS3Phase outcome = (false, [WriteKey.rawLatest])) ∧
    (outcome WriteKey.rawLatest = true →
      saveToS3Phase outcome = (true, allWrites)) := by
  constructor <;> intro h <;> simp [saveToS3Phase, allWrites, h]

/-- C7 witness: the theorem applied to a run where every secondary write
fails but the raw-latest write succeeds. -/
theorem c7_latest_gates_secondary_witness :
    ((fun k => k = WriteKey.rawLatest : WriteKey → Bool)
        WriteKey.rawLatest = true) ∧
    saveToS3Phase (fun k => k = WriteKey.rawLatest) = (true, allWrites) :=
  ⟨by decide, (c7_latest_gates_secondary _).2 (by decide)⟩

/-- C3: the failing input for the decoder's totality — a key of exactly seven
slash-separated parts whose second part is `stock` and fifth part is `daily`
passes the `len(parts) >= 7` guard and then reads `parts[7]`, raising
`IndexError` (modelled as `none`) instead of returning the `unknown`
variant. -/
theorem c3_parse_daily_seven_parts_raises :
    parse_s3_key (ls "prod/stock/raw/NVDA/daily/2024/01") = none := by decide

end Theorems

section TheoremsC6

open ApiClient

theorem apiLoop_attempts_le {α : Type} (attempts : ℕ → Outcome α)
    (jitter : ℕ → ℚ) (maxRetries : ℕ) :
    ∀ fuel rc, (apiLoop attempts jitter maxRetries fuel rc).2.1 ≤ fuel := by
  intro fuel
  induction fuel with
  | zero => intro rc; simp [apiLoop]
  | succ n ih =>
    intro rc
    cases h : attempts rc <;> simp [apiLoop, h] <;>
      exact ih (rc + 1)

theorem apiLoop_sleeps {α : Type} (attempts : ℕ → Outcome α)
    (jitter : ℕ → ℚ) (maxRetries : ℕ) :
    ∀ fuel rc, fuel + rc ≤ maxRetries + 1 →
      ∀ i, i < (apiLoop attempts jitter maxRetries fuel rc).2.2.length →
        (apiLoop attempts jitter maxRetries fuel rc).2.2.getD i 0
          = 2 ^ (rc + i) + jitter (rc + i) := by
  intro fuel
  induction fuel with
  | zero => intro rc _ i hi; simp [apiLoop] at hi
  | succ n ih =>
    intro rc hrc i hi
    cases h : attempts rc with
    | success d => simp [apiLoop, h] at hi
    | validationFail => simp [apiLoop, h] at hi
    | transport =>
      by_cases hlt : rc < maxRetries
      · cases i with
        | zero => simp [apiLoop, h, hlt]
        | succ j =>
          simp only [apiLoop, h, if_pos hlt] at hi ⊢
          simp only [List.cons_append, List.nil_append, List.length_cons,
            Nat.succ_lt_succ_iff] at hi
          have := ih (rc + 1) (by omega) j hi
          simpa [Nat.add_assoc, Nat.add_comm 1 j] using this
      · have hn : n = 0 := by omega
        subst hn
        simp [apiLoop, h, hlt] at hi
    | otherError =>
      by_cases hlt : rc < maxRetries
      · cases i with
        | zero => simp [apiLoop, h, hlt]
        | succ j =>
          simp only [apiLoop, h, if_pos hlt] at hi ⊢
          simp only [List.cons_append, List.nil_append, List.length_cons,
            Nat.succ_lt_succ_iff] at hi
          have := ih (rc + 1) (by omega) j hi
          simpa [Nat.add_assoc, Nat.add_comm 1 j] using this
      · have hn : n = 0 := by omega
        subst hn
        simp [apiLoop, h, hlt] at hi

theorem apiLoop_validation_immediate {α : Type} (attempts : ℕ → Outcome α)
    (jitter : ℕ → ℚ) (maxRetries : ℕ) :
    ∀ i fuel rc, i < fuel → rc + i ≤ maxRetries →
      attempts (rc + i) = Outcome.validationFail →
      (∀ j, j < i → (attempts (rc + j)).isTransient = true) →
      (apiLoop attempts jitter maxRetries fuel rc).1 = none ∧
      (apiLoop attempts jitter maxRetries fuel rc).2.1 = i + 1 ∧
      (apiLoop attempts jitter maxRetries fuel rc).2.2.length = i := by
  intro i
  induction i with
  | zero =>
    intro fuel rc hfuel _ hval _
    obtain ⟨n, rfl⟩ : ∃ n, fuel = n + 1 :=
      ⟨fuel - 1, by omega⟩
    simp only [Nat.add_zero] at hval
    simp [apiLoop, hval]
  | succ m ih =>
    intro fuel rc hfuel hle hval htrans
    obtain ⟨n, rfl⟩ : ∃ n, fuel = n + 1 := ⟨fuel - 1, by omega⟩
    have h0 : (attempts rc).isTransient = true := by
      have := htrans 0 (Nat.succ_pos m)
      simpa using this
    have hrec := ih n (rc + 1) (by omega) (by omega)
      (by have : rc + 1 + m = rc + (m + 1) := by omega
          rw [this]; exact hval)
      (by intro j hj
          have : rc + 1 + j = rc + (j + 1) := by omega
          rw [this]; exact htrans (j + 1) (by omega))
    have hlt : rc < maxRetries := by omega
    cases h : attempts rc with
    | success d => rw [h] at h0; simp [Outcome.isTransient] at h0
    | validationFail => rw [h] at h0; simp [Outcome.isTransient] at h0
    | transport =>
      refine ⟨?_, ?_, ?_⟩ <;> simp [apiLoop, h, hlt, hrec.1, hrec.2.1, hrec.2.2]
    | otherError =>
      refine ⟨?_, ?_, ?_⟩ <;> simp [apiLoop, h, hlt, hrec.1, hrec.2.1, hrec.2.2]

/-- C6: with the default `max_retries = 3`, `_make_api_request` performs at
most 4 attempts in total; the sleep before retry number k+1 is
`2 ^ k + uniform(0, 1)` seconds; and a response-validation failure is never
retried — if attempt i fails validation (all earlier attempts having failed
with retryable transport/unexpected errors), the call returns `None` right
there, after exactly i + 1 attempts and i backoff sleeps. -/
theorem c6_retry_policy {α : Type} (attempts : ℕ → Outcome α)
    (jitter : ℕ → ℚ) :
    (make_api_request attempts jitter 3).2.1 ≤ 4 ∧
    (∀ i, i < (make_api_request attempts jitter 3).2.2.length →
      (make_api_request attempts jitter 3).2.2.getD i 0 = 2 ^ i + jitter i) ∧
    (∀ i, i ≤ 3 → attempts i = Outcome.validationFail →
      (∀ j, j < i → (attempts j).isTransient = true) →
      (make_api_request attempts jitter 3).1 = none ∧
      (make_api_request attempts jitter 3).2.1 = i + 1 ∧
      (make_api_request attempts jitter 3).2.2.length = i) := by
  refine ⟨apiLoop_attempts_le attempts jitter 3 4 0, ?_, ?_⟩
  · intro i hi
    have := apiLoop_sleeps attempts jitter 3 4 0 (by omega) i hi
    simpa using this
  · intro i hi hval htrans
    exact apiLoop_validation_immediate attempts jitter 3 i 4 0 (by omega)
      (by omega) (by simpa using hval) (by simpa using htrans)

/-- C6 witness: a transport failure on attempt 0 followed by a validation
failure on attempt 1 — the call stops at once with `None`, 2 attempts,
1 sleep. -/
theorem c6_retry_policy_witness :
    (1 ≤ 3 ∧ sampleAttempts 1 = Outcome.validationFail ∧
      (∀ j, j < 1 → (sampleAttempts j).isTransient = true)) ∧
    ((make_api_request sampleAttempts zeroJitter 3).1 = none ∧
     (make_api_request sampleAttempts zeroJitter 3).2.1 = 1 + 1 ∧
     (make_api_request sampleAttempts zeroJitter 3).2.2.length = 1) :=
  ⟨⟨by omega, rfl, fun j hj => by
      have : j = 0 := by omega
      subst this; rfl⟩,
   (c6_retry_policy sampleAttempts zeroJitter).2.2 1 (by omega) rfl
     (fun j hj => by
       have : j = 0 := by omega
       subst this; rfl)⟩

end TheoremsC6

section TheoremsC8

open S3Paths Migration

theorem migLoop_stats (env : MigEnv) (tv dt : PyStr) (im : Option Bool)
    (ds dr em : Bool) :
    ∀ (objects : List PyStr) (total success failed skipped : ℕ)
      (pairs : List (PyStr × PyStr)),
      (∀ k ∈ objects, (parse_s3_key k).isSome) →
      ∃ st, migLoop env tv dt im ds dr em objects
          ⟨total, success, failed, skipped, pairs⟩ = some st ∧
        st.total = total ∧
        st.success + st.failed + st.skipped
          = success + failed + skipped + objects.length ∧
        st.skipped = skipped + objects.countP (skipsKey tv) := by
  intro objects
  induction objects with
  | nil =>
    intro total success failed skipped pairs _
    exact ⟨⟨total, success, failed, skipped, pairs⟩, rfl, rfl, by simp, by simp⟩
  | cons k rest ih =>
    intro total success failed skipped pairs hall
    have hk : (parse_s3_key k).isSome := hall k (by simp)
    obtain ⟨info, hinfo⟩ := Option.isSome_iff_exists.mp hk
    have hrest : ∀ k' ∈ rest, (parse_s3_key k').isSome :=
      fun k' h' => hall k' (by simp [h'])
    have hskip : skipsKey tv k
        = (info.version = ls "unknown" || info.version = tv) := by
      simp [skipsKey, hinfo]
    by_cases hunk : info.version = ls "unknown"
    · obtain ⟨st, h1, h2, h3, h4⟩ :=
        ih total success failed (skipped + 1) pairs hrest
      refine ⟨st, ?_, h2, ?_, ?_⟩
      · simpa [migLoop, hinfo, hunk] using h1
      · simp [List.length_cons]; omega
      · rw [List.countP_cons, hskip]
        simp [hunk, h4]; omega
    · by_cases htv : info.version = tv
      · obtain ⟨st, h1, h2, h3, h4⟩ :=
          ih total success failed (skipped + 1) pairs hrest
        refine ⟨st, ?_, h2, ?_, ?_⟩
        · simpa [migLoop, hinfo, hunk, htv] using h1
        · simp [List.length_cons]; omega
        · rw [List.countP_cons, hskip]
          simp [htv, h4]; omega
      · have hskipf : skipsKey tv k = false := by
          rw [hskip]; simp [hunk, htv]
        set r := migrate_object env k tv dt im ds dr em with hr
        by_cases hr1 : r.1 = true
        · obtain ⟨st, h1, h2, h3, h4⟩ :=
            ih total (success + 1) failed skipped
              (pairs ++ (if r.2 ≠ some k then [(k, r.2.getD [])] else []))
              hrest
          refine ⟨st, ?_, h2, ?_, ?_⟩
          · simpa [migLoop, hinfo, hunk, htv, ← hr, hr1] using h1
          · simp [List.length_cons]; omega
          · rw [List.countP_cons, hskipf]
            simp [h4]
        · have hr1f : r.1 = false := by
            cases hb : r.1
            · rfl
            · exact absurd hb hr1
          obtain ⟨st, h1, h2, h3, h4⟩ :=
            ih total success (failed + 1) skipped pairs hrest
          refine ⟨st, ?_, h2, ?_, ?_⟩
          · simpa [migLoop, hinfo, hunk, htv, ← hr, hr1f] using h1
          · simp [List.length_cons]; omega
          · rw [List.countP_cons, hskipf]
            simp [h4]

/-- C8 counterexample: a listing containing a key of exactly seven parts in
the daily V2 shape makes the batch runner raise (the loop's own
`parse_s3_key` call sits outside any `try`), aborting the whole batch instead
of skipping or failing that single key. -/
theorem c8_counterexample_batch_aborts :
    migrate_objects allOkEnv [ls "prod/stock/raw/NVDA/daily/2024/01"]
      (ls "v2") (ls "raw") none false false false = none := by decide

/-- C8 amended: for every listing in which each key decodes without raising
(no key of the 7-part daily shape that trips the decoder's IndexError),
`migrate_objects` processes every listed key without aborting on per-object
failures, and the returned statistics satisfy `total = number of listed keys`,
`total = success + failed + skipped`, with exactly the unknown-format keys
and the keys already at the target version counted as skipped. -/
theorem c8_amended_stats (env : MigEnv) (objects : List PyStr)
    (tv dt : PyStr) (im : Option Bool) (ds dr em : Bool)
    (hall : ∀ k ∈ objects, (parse_s3_key k).isSome) :
    ∃ st, migrate_objects env objects tv dt im ds dr em = some st ∧
      st.total = objects.length ∧
      st.total = st.success + st.failed + st.skipped ∧
      st.skipped = objects.countP (skipsKey tv) := by
  by_cases hobj : objects = []
  · subst hobj
    exact ⟨⟨0, 0, 0, 0, []⟩, rfl, rfl, rfl, by simp⟩
  · obtain ⟨st, h1, h2, h3, h4⟩ := migLoop_stats env tv dt im ds dr em objects
      objects.length 0 0 0 [] hall
    refine ⟨st, ?_, h2, ?_, ?_⟩
    · simpa [migrate_objects, hobj] using h1
    · omega
    · simpa using h4

/-- C8 witness: the amended theorem applied to a listing with one V1 key
(migrated), one unrecognized key (skipped) and one already-V2 key
(skipped). -/
theorem c8_amended_stats_witness :
    (∀ k ∈ sampleListing, (parse_s3_key k).isSome) ∧
    ∃ st, migrate_objects allOkEnv sampleListing (ls "v2") (ls "raw")
        (some false) false false false = some st ∧
      st.total = sampleListing.length ∧
      st.total = st.success + st.failed + st.skipped ∧
      st.skipped = sampleListing.countP (skipsKey (ls "v2")) :=
  ⟨by decide, c8_amended_stats allOkEnv sampleListing (ls "v2") (ls "raw")
    (some false) false false false (by decide)⟩

end TheoremsC8

section TheoremsC4Helpers

open S3Paths

theorem pySplit_ne_nil (sep : Char) (xs : List Char) : pySplit sep xs ≠ [] := by
  cases xs with
  | nil => simp [pySplit]
  | cons c cs =>
    simp only [pySplit]
    split
    · simp
    · split <;> simp

theorem pySplit_append (sep : Char) (xs ys : List Char) (h : sep ∉ xs) :
    pySplit sep (xs ++ sep :: ys) = xs :: pySplit sep ys := by
  induction xs with
  | nil => simp [pySplit]
  | cons c cs ih =>
    have hc : ¬c = sep := fun hc => h (hc ▸ List.mem_cons_self c cs)
    have hcs : sep ∉ cs := fun hm => h (List.mem_cons_of_mem c hm)
    simp only [List.cons_append, pySplit, if_neg hc, List.append_eq, ih hcs]

theorem pySplit_no_sep (sep : Char) (xs : List Char) (h : sep ∉ xs) :
    pySplit sep xs = [xs] := by
  induction xs with
  | nil => rfl
  | cons c cs ih =>
    have hc : ¬c = sep := fun hc => h (hc ▸ List.mem_cons_self c cs)
    have hcs : sep ∉ cs := fun hm => h (List.mem_cons_of_mem c hm)
    simp only [pySplit, if_neg hc, ih hcs]

theorem pySplit_joinParts (parts : List PyStr) (hne : parts ≠ [])
    (h : ∀ p ∈ parts, '/' ∉ p) :
    pySplit '/' (joinParts parts) = parts := by
  induction parts with
  | nil => exact absurd rfl hne
  | cons p rest ih =>
    cases rest with
    | nil => exact pySplit_no_sep '/' p (h p (by simp))
    | cons q qs =>
      have hp : '/' ∉ p := h p (by simp)
      have hrest : ∀ x ∈ q :: qs, '/' ∉ x := fun x hx => h x (by simp [hx])
      calc pySplit '/' (joinParts (p :: q :: qs))
          = pySplit '/' (p ++ '/' :: joinParts (q :: qs)) := rfl
        _ = p :: pySplit '/' (joinParts (q :: qs)) :=
            pySplit_append '/' p (joinParts (q :: qs)) hp
        _ = p :: (q :: qs) := by rw [ih (by simp) hrest]

theorem latest_key_join (env dt sym : PyStr) :
    env ++ ls "/stock/" ++ dt ++ ['/'] ++ sym ++ ls "/latest.json"
      = joinParts [env, ls "stock", dt, sym, ls "latest.json"] := by
  simp only [joinParts, List.append_assoc]
  rfl

theorem full_key_join (env dt sym : PyStr) :
    env ++ ls "/stock/" ++ dt ++ ['/'] ++ sym ++ ls "/full.json"
      = joinParts [env, ls "stock", dt, sym, ls "full.json"] := by
  simp only [joinParts, List.append_assoc]
  rfl

theorem metadata_key_join (env dt sym : PyStr) :
    env ++ ls "/stock/" ++ dt ++ ['/'] ++ sym ++ ls "/metadata.json"
      = joinParts [env, ls "stock", dt, sym, ls "metadata.json"] := by
  simp only [joinParts, List.append_assoc]
  rfl

theorem daily_key_join (env dt sym y m d : PyStr) :
    env ++ ls "/stock/" ++ dt ++ ['/'] ++ sym ++ ls "/daily/" ++ y ++ ['/'] ++
        m ++ ['/'] ++ d ++ ls ".json"
      = joinParts [env, ls "stock", dt, sym, ls "daily", y, m,
          d ++ ls ".json"] := by
  simp only [joinParts, List.append_assoc]
  rfl

end TheoremsC4Helpers

section TheoremsC4Parse

open S3Paths

theorem parse_v2_latest (k env dt sym : PyStr)
    (h : pySplit '/' k = [env, ls "stock", dt, sym, ls "latest.json"]) :
    parse_s3_key k
      = some { version := ls "v2", environment := some env,
               data_type := some dt, symbol := some sym,
               key_type := some (ls "latest") } := by
  unfold parse_s3_key
  rw [h]
  rfl

theorem parse_v2_full (k env dt sym : PyStr)
    (h : pySplit '/' k = [env, ls "stock", dt, sym, ls "full.json"]) :
    parse_s3_key k
      = some { version := ls "v2", environment := some env,
               data_type := some dt, symbol := some sym,
               key_type := some (ls "full") } := by
  unfold parse_s3_key
  rw [h]
  rfl

theorem parse_v2_metadata (k env dt sym : PyStr)
    (h : pySplit '/' k = [env, ls "stock", dt, sym, ls "metadata.json"]) :
    parse_s3_key k
      = some { version := ls "v2", environment := some env,
               data_type := some dt, symbol := some sym,
               key_type := some (ls "metadata") } := by
  unfold parse_s3_key
  rw [h]
  rfl

theorem parse_v2_daily (k env dt sym y m p7 : PyStr)
    (h : pySplit '/' k = [env, ls "stock", dt, sym, ls "daily", y, m, p7]) :
    parse_s3_key k
      = some { version := ls "v2", environment := some env,
               data_type := some dt, symbol := some sym,
               key_type := some (ls "daily"),
               date := some (y ++ '-' :: m ++ '-' :: (pySplit '.' p7).getD 0 []),
               year := some y, month := some m,
               day := some ((pySplit '.' p7).getD 0 []) } := by
  unfold parse_s3_key
  rw [h]
  rfl

theorem day_of_json (d : List Char) (hd : '.' ∉ d) :
    (pySplit '.' (d ++ ls ".json")).getD 0 [] = d := by
  have h1 : d ++ ls ".json" = d ++ '.' :: ls "json" := rfl
  rw [h1, pySplit_append '.' d (ls "json") hd]
  rfl

end TheoremsC4Parse

section TheoremsC4Round

open S3Paths

theorem envPrefix_no_slash (isMock : Bool) :
    '/' ∉ (if isMock then ls "test" else ls "prod") := by
  cases isMock <;> decide

theorem envPrefix_decide (isMock : Bool) :
    (decide (some (if isMock then ls "test" else ls "prod")
      = some (ls "test"))) = isMock := by
  cases isMock <;> decide

theorem roundtrip_latest (dt sym : PyStr) (isMock envMock : Bool)
    (dta : Option PyStr) (hsym : sym ≠ []) (hsymS : '/' ∉ sym)
    (hdt : '/' ∉ dt) (hdta : dta.getD (ls "raw") = dt) :
    ∃ key, get_s3_key sym dt none true (some isMock) envMock = some key ∧
      (parse_s3_key key).map KeyInfo.version = some (ls "v2") ∧
      convert_key_format key (ls "v2") dta none none envMock = some key := by
  set envP := if isMock then ls "test" else ls "prod" with henvP
  have hsplit : pySplit '/'
      (envP ++ ls "/stock/" ++ dt ++ ['/'] ++ sym ++ ls "/latest.json")
      = [envP, ls "stock", dt, sym, ls "latest.json"] := by
    rw [latest_key_join]
    refine pySplit_joinParts _ (by simp) ?_
    intro p hp
    simp only [List.mem_cons, List.not_mem_nil, or_false] at hp
    rcases hp with rfl | rfl | rfl | rfl | rfl
    · exact envPrefix_no_slash isMock
    · decide
    · exact hdt
    · exact hsymS
    · decide
  have hparse := parse_v2_latest _ envP dt sym hsplit
  refine ⟨envP ++ ls "/stock/" ++ dt ++ ['/'] ++ sym ++ ls "/latest.json",
    rfl, ?_, ?_⟩
  · rw [hparse]; rfl
  · cases sym with
    | nil => exact absurd rfl hsym
    | cons c cs =>
      simp only [convert_key_format, hparse, Option.getD_some, ne_eq,
        reduceCtorEq, false_or, Option.getD_none, envPrefix_decide, henvP,
        hdta,
        (by decide : ((ls "latest" : PyStr) = ls "daily") = False),
        (by decide : ((ls "latest" : PyStr) = []) = False),
        if_true, if_false, ite_true, ite_false]
      rfl

end TheoremsC4Round

section TheoremsC4Round2

open S3Paths

theorem roundtrip_full (dt sym : PyStr) (isMock envMock : Bool)
    (dta : Option PyStr) (hsym : sym ≠ []) (hsymS : '/' ∉ sym)
    (hdt : '/' ∉ dt) (hdta : dta.getD (ls "raw") = dt) :
    ∃ key, get_s3_key sym dt none false (some isMock) envMock = some key ∧
      (parse_s3_key key).map KeyInfo.version = some (ls "v2") ∧
      convert_key_format key (ls "v2") dta none none envMock = some key := by
  set envP := if isMock then ls "test" else ls "prod" with henvP
  have hsplit : pySplit '/'
      (envP ++ ls "/stock/" ++ dt ++ ['/'] ++ sym ++ ls "/full.json")
      = [envP, ls "stock", dt, sym, ls "full.json"] := by
    rw [full_key_join]
    refine pySplit_joinParts _ (by simp) ?_
    intro p hp
    simp only [List.mem_cons, List.not_mem_nil, or_false] at hp
    rcases hp with rfl | rfl | rfl | rfl | rfl
    · exact envPrefix_no_slash isMock
    · decide
    · exact hdt
    · exact hsymS
    · decide
  have hparse := parse_v2_full _ envP dt sym hsplit
  refine ⟨envP ++ ls "/stock/" ++ dt ++ ['/'] ++ sym ++ ls "/full.json",
    rfl, ?_, ?_⟩
  · rw [hparse]; rfl
  · cases sym with
    | nil => exact absurd rfl hsym
    | cons c cs =>
      simp only [convert_key_format, hparse, Option.getD_some, ne_eq,
        reduceCtorEq, false_or, Option.getD_none, envPrefix_decide, henvP,
        hdta,
        (by decide : ((ls "full" : PyStr) = ls "daily") = False),
        (by decide : ((ls "full" : PyStr) = ls "latest") = False),
        (by decide : ((ls "full" : PyStr) = []) = False),
        if_true, if_false, ite_true, ite_false]
      rfl

theorem roundtrip_metadata (dt sym : PyStr) (isMock envMock : Bool)
    (dta : Option PyStr) (hsym : sym ≠ []) (hsymS : '/' ∉ sym)
    (hdt : '/' ∉ dt) (hdta : dta.getD (ls "raw") = dt) :
    ∃ key, some (get_metadata_key sym dt (some isMock) envMock) = some key ∧
      (parse_s3_key key).map KeyInfo.version = some (ls "v2") ∧
      convert_key_format key (ls "v2") dta none none envMock = some key := by
  set envP := if isMock then ls "test" else ls "prod" with henvP
  have hsplit : pySplit '/'
      (envP ++ ls "/stock/" ++ dt ++ ['/'] ++ sym ++ ls "/metadata.json")
      = [envP, ls "stock", dt, sym, ls "metadata.json"] := by
    rw [metadata_key_join]
    refine pySplit_joinParts _ (by simp) ?_
    intro p hp
    simp only [List.mem_cons, List.not_mem_nil, or_false] at hp
    rcases hp with rfl | rfl | rfl | rfl | rfl
    · exact envPrefix_no_slash isMock
    · decide
    · exact hdt
    · exact hsymS
    · decide
  have hparse := parse_v2_metadata _ envP dt sym hsplit
  refine ⟨envP ++ ls "/stock/" ++ dt ++ ['/'] ++ sym ++ ls "/metadata.json",
    rfl, ?_, ?_⟩
  · rw [hparse]; rfl
  · cases sym with
    | nil => exact absurd rfl hsym
    | cons c cs =>
      simp only [convert_key_format, hparse, Option.getD_some, ne_eq,
        reduceCtorEq, false_or, Option.getD_none, envPrefix_decide, henvP,
        hdta,
        (by decide : ((ls "metadata" : PyStr) = ls "daily") = False),
        (by decide : ((ls "metadata" : PyStr) = ls "latest") = False),
        (by decide : ((ls "metadata" : PyStr) = ls "full") = False),
        (by decide : ((ls "metadata" : PyStr) = []) = False),
        if_true, if_false, ite_true, ite_false]
      rfl

theorem roundtrip_daily (dt sym y m d : PyStr) (isMock envMock : Bool)
    (dta : Option PyStr) (hsym : sym ≠ []) (hsymS : '/' ∉ sym)
    (hdt : '/' ∉ dt) (hdta : dta.getD (ls "raw") = dt)
    (hyS : '/' ∉ y) (hyD : '-' ∉ y) (hmS : '/' ∉ m) (hmD : '-' ∉ m)
    (hdS : '/' ∉ d) (hdD : '-' ∉ d) (hdDot : '.' ∉ d) :
    ∃ key, get_s3_key sym dt (some (y ++ '-' :: m ++ '-' :: d)) false
        (some isMock) envMock = some key ∧
      (parse_s3_key key).map KeyInfo.version = some (ls "v2") ∧
      convert_key_format key (ls "v2") dta none none envMock = some key := by
  set envP := if isMock then ls "test" else ls "prod" with henvP
  have hdsplit : pySplit '-' (y ++ '-' :: m ++ '-' :: d) = [y, m, d] := by
    have h1 : y ++ '-' :: m ++ '-' :: d = y ++ '-' :: (m ++ '-' :: d) := by
      simp [List.append_assoc]
    rw [h1, pySplit_append '-' y _ hyD, pySplit_append '-' m _ hmD,
      pySplit_no_sep '-' d hdD]
  have hkey : get_s3_key sym dt (some (y ++ '-' :: m ++ '-' :: d)) false
      (some isMock) envMock
      = some (envP ++ ls "/stock/" ++ dt ++ ['/'] ++ sym ++ ls "/daily/" ++
          y ++ ['/'] ++ m ++ ['/'] ++ d ++ ls ".json") := by
    simp only [get_s3_key, Option.getD_some, ne_eq, List.append_eq_nil,
      reduceCtorEq, and_false, not_false_iff, Bool.false_eq_true,
      if_true, if_false, ite_true, ite_false, hdsplit, henvP]
  have hsplit : pySplit '/'
      (envP ++ ls "/stock/" ++ dt ++ ['/'] ++ sym ++ ls "/daily/" ++
        y ++ ['/'] ++ m ++ ['/'] ++ d ++ ls ".json")
      = [envP, ls "stock", dt, sym, ls "daily", y, m, d ++ ls ".json"] := by
    rw [daily_key_join]
    refine pySplit_joinParts _ (by simp) ?_
    intro p hp
    simp only [List.mem_cons, List.not_mem_nil, or_false] at hp
    rcases hp with rfl | rfl | rfl | rfl | rfl | rfl | rfl | rfl
    · exact envPrefix_no_slash isMock
    · decide
    · exact hdt
    · exact hsymS
    · decide
    · exact hyS
    · exact hmS
    · intro hmem
      rcases List.mem_append.mp hmem with h | h
      · exact hdS h
      · exact (by decide : '/' ∉ ls ".json") h
  have hparse := parse_v2_daily _ envP dt sym y m (d ++ ls ".json") hsplit
  rw [day_of_json d hdDot] at hparse
  refine ⟨envP ++ ls "/stock/" ++ dt ++ ['/'] ++ sym ++ ls "/daily/" ++
    y ++ ['/'] ++ m ++ ['/'] ++ d ++ ls ".json", hkey, ?_, ?_⟩
  · rw [hparse]; rfl
  · cases sym with
    | nil => exact absurd rfl hsym
    | cons c cs =>
      simp only [convert_key_format, hparse, Option.getD_some, ne_eq,
        reduceCtorEq, false_or, Option.getD_none, envPrefix_decide, henvP,
        hdta, List.append_eq_nil, and_false,
        (by decide : ((ls "daily" : PyStr) = []) = False),
        if_true, if_false, ite_true, ite_false,
        get_s3_key, Bool.false_eq_true, not_false_iff, hdsplit]

end TheoremsC4Round2

section TheoremsC4Main

open S3Paths

/-- C4 counterexample: the key the scheme itself produces for a PROCESSED
latest object parses as version v2, yet `convert_key_format(K, "v2")` with no
`data_type` keyword returns the corresponding RAW key, not K — the conversion
defaults `data_type` to `"raw"` instead of reading it from the parsed key, so
idempotence fails on already-current processed keys. -/
theorem c4_counterexample_processed_not_idempotent :
    get_s3_key (ls "NVDA") (ls "processed") none true (some false) false
      = some (ls "prod/stock/processed/NVDA/latest.json") ∧
    (parse_s3_key (ls "prod/stock/processed/NVDA/latest.json")).map
        KeyInfo.version = some (ls "v2") ∧
    convert_key_format (ls "prod/stock/processed/NVDA/latest.json") (ls "v2")
        none none none false
      = some (ls "prod/stock/raw/NVDA/latest.json") ∧
    some (ls "prod/stock/raw/NVDA/latest.json")
      ≠ some (ls "prod/stock/processed/NVDA/latest.json") := by
  refine ⟨by decide, by decide, by decide, by decide⟩

/-- C4 amended: every key K produced by `get_s3_key` / `get_metadata_key`
under the current layout — for any symbol, data type (raw or processed),
environment, key type and well-formed date — satisfies
`parse_s3_key(K).version = "v2"`; and `convert_key_format(K, "v2")` returns K
unchanged provided the conversion's `data_type` argument matches the key's
data type (which holds with no argument exactly when the key is a raw key,
since the conversion defaults `data_type` to `"raw"`). -/
theorem c4_amended_v2_roundtrip (kind : V2Kind) (sym dt y m d : PyStr)
    (isMock envMock : Bool) (dta : Option PyStr)
    (hsym : sym ≠ []) (hsymS : '/' ∉ sym)
    (hdt : dt = ls "raw" ∨ dt = ls "processed")
    (hdta : dta.getD (ls "raw") = dt)
    (hyS : '/' ∉ y) (hyD : '-' ∉ y) (hmS : '/' ∉ m) (hmD : '-' ∉ m)
    (hdS : '/' ∉ d) (hdD : '-' ∉ d) (hdDot : '.' ∉ d) :
    ∃ key, v2KeyFor kind sym dt y m d isMock envMock = some key ∧
      (parse_s3_key key).map KeyInfo.version = some (ls "v2") ∧
      convert_key_format key (ls "v2") dta none none envMock = some key := by
  have hdtS : '/' ∉ dt := by rcases hdt with rfl | rfl <;> decide
  cases kind with
  | latest =>
    exact roundtrip_latest dt sym isMock envMock dta hsym hsymS hdtS hdta
  | full =>
    exact roundtrip_full dt sym isMock envMock dta hsym hsymS hdtS hdta
  | daily =>
    exact roundtrip_daily dt sym y m d isMock envMock dta hsym hsymS hdtS hdta
      hyS hyD hmS hmD hdS hdD hdDot
  | metadata =>
    exact roundtrip_metadata dt sym isMock envMock dta hsym hsymS hdtS hdta

/-- C4 witness: the amended theorem applied to the processed daily key of
NVDA on 2024-01-15 in the prod environment, with the key's data type passed
to the conversion. -/
theorem c4_amended_v2_roundtrip_witness :
    ∃ key, v2KeyFor V2Kind.daily (ls "NVDA") (ls "processed") (ls "2024")
        (ls "01") (ls "15") false false = some key ∧
      (parse_s3_key key).map KeyInfo.version = some (ls "v2") ∧
      convert_key_format key (ls "v2") (some (ls "processed")) none none false
        = some key :=
  c4_amended_v2_roundtrip V2Kind.daily (ls "NVDA") (ls "processed") (ls "2024")
    (ls "01") (ls "15") false false (some (ls "processed"))
    (by decide) (by decide) (Or.inr rfl) (by decide) (by decide) (by decide)
    (by decide) (by decide) (by decide) (by decide) (by decide)

end TheoremsC4Main

section TheoremsC5

open DataProcessing

theorem chainStep (b x : Bool) :
    (if b = true then false else x) = true ↔ b = false ∧ x = true := by
  cases b <;> simp

theorem null_iff (rows : List BarRow) :
    rows.any rowHasNull = false ↔ ∀ r ∈ rows, RowComplete r := by
  rw [List.any_eq_false]
  refine forall_congr' fun r => forall_congr' fun _ => ?_
  obtain ⟨o, h, l, c, v⟩ := r
  cases o <;> cases h <;> cases l <;> cases c <;> cases v <;>
    simp [rowHasNull, RowComplete]

theorem vol_iff (rows : List BarRow) :
    rows.any (fun r => cellP (fun x => x = 0) r.volume) = false ↔
      ∀ r ∈ rows, r.volume ≠ some 0 := by
  rw [List.any_eq_false]
  refine forall_congr' fun r => forall_congr' fun _ => ?_
  cases hv : r.volume <;> simp [cellP, hv]

theorem neg_iff (rows : List BarRow) :
    rows.any (fun r => priceCols.any (fun f => cellP (fun x => x < 0) (f r)))
        = false ↔
      ∀ r ∈ rows, ∀ f ∈ priceCols, ∀ x, f r = some x → 0 ≤ x := by
  rw [List.any_eq_false]
  refine forall_congr' fun r => forall_congr' fun _ => ?_
  rw [Bool.not_eq_true, List.any_eq_false]
  refine forall_congr' fun f => forall_congr' fun _ => ?_
  rw [Bool.not_eq_true]
  cases hf : f r <;> simp [cellP, hf, not_lt]

theorem outlier_iff (rows : List BarRow) :
    priceCols.any (fun f => colHasOutlier rows f) = false ↔
      ∀ f ∈ priceCols, ∀ r ∈ rows, ∀ x, f r = some x →
        x ≤ quantile99 (colOf rows f) * 10 := by
  rw [List.any_eq_false]
  refine forall_congr' fun f => forall_congr' fun _ => ?_
  rw [Bool.not_eq_true]
  unfold colHasOutlier
  rw [List.any_eq_false]
  refine forall_congr' fun r => forall_congr' fun _ => ?_
  rw [Bool.not_eq_true]
  cases hf : f r <;> simp [cellP, hf, not_lt]

theorem lowhigh_iff (rows : List BarRow) :
    rows.any (fun r =>
        cellP (fun lo => cellP (fun hi => hi < lo) r.highPrice) r.lowPrice)
      = false ↔
      ∀ r ∈ rows, ∀ lo hi, r.lowPrice = some lo → r.highPrice = some hi →
        lo ≤ hi := by
  rw [List.any_eq_false]
  refine forall_congr' fun r => forall_congr' fun _ => ?_
  cases hlo : r.lowPrice <;> cases hhi : r.highPrice <;>
    simp [cellP, hlo, hhi, not_lt]

theorem closerange_iff (rows : List BarRow) :
    rows.any (fun r =>
        cellP (fun c => cellP (fun hi => hi < c) r.highPrice) r.closePrice ||
        cellP (fun c => cellP (fun lo => c < lo) r.lowPrice) r.closePrice)
      = false ↔
      ∀ r ∈ rows,
        (∀ hi c, r.highPrice = some hi → r.closePrice = some c → c ≤ hi) ∧
        (∀ lo c, r.lowPrice = some lo → r.closePrice = some c → lo ≤ c) := by
  rw [List.any_eq_false]
  refine forall_congr' fun r => forall_congr' fun _ => ?_
  cases hlo : r.lowPrice <;> cases hhi : r.highPrice <;>
    cases hc : r.closePrice <;>
    simp [cellP, hlo, hhi, hc, not_lt]

theorem openrange_iff (rows : List BarRow) :
    rows.any (fun r =>
        cellP (fun o => cellP (fun hi => hi < o) r.highPrice) r.openPrice ||
        cellP (fun o => cellP (fun lo => o < lo) r.lowPrice) r.openPrice)
      = false ↔
      ∀ r ∈ rows,
        (∀ hi o, r.highPrice = some hi → r.openPrice = some o → o ≤ hi) ∧
        (∀ lo o, r.lowPrice = some lo → r.openPrice = some o → lo ≤ o) := by
  rw [List.any_eq_false]
  refine forall_congr' fun r => forall_congr' fun _ => ?_
  cases hlo : r.lowPrice <;> cases hhi : r.highPrice <;>
    cases ho : r.openPrice <;>
    simp [cellP, hlo, hhi, ho, not_lt]

/-- C5 amended: the quality gate accepts a series if and only if it is
non-empty and, over the chronologically sorted rows, there is no missing
cell, no zero-volume row, no negative value in ANY of the four price columns,
no value in ANY of the four price columns above ten times that same column's
own 99th percentile (not only the high column, as the claim stated), and
every row has low ≤ open, close ≤ high. -/
theorem c5_amended_gate_iff (series : List (ℤ × BarRow)) :
    validate_and_transform series = true ↔ SpecAccept series := by
  by_cases hemp : series = []
  · subst hemp
    simp [validate_and_transform, SpecAccept]
  · have hne : series.isEmpty = false := by simp [List.isEmpty_iff, hemp]
    unfold validate_and_transform
    rw [hne]
    simp only [Bool.false_eq_true, if_false]
    unfold SpecAccept rowsOf
    unfold run_quality_checks
    rw [chainStep, chainStep, chainStep, chainStep, chainStep, chainStep,
      chainStep]
    rw [null_iff, vol_iff, neg_iff, outlier_iff, lowhigh_iff, closerange_iff,
      openrange_iff]
    simp [hemp]

unseal Rat.mul Rat.inv Rat.sub Rat.add in
/-- C5 counterexample: a 92-day series (91 quiet days, one spike day) that
passes all seven checks as the claim states them — in particular its HIGH
column has no 10x-99th-percentile outlier — yet `validate_and_transform`
rejects it, because the code applies the outlier guard to every price column
and the spike day's OPEN (100) exceeds ten times the open column's 99th
percentile (9.91). -/
theorem c5_counterexample_open_outlier :
    claimSevenChecks spikeSeries = true ∧
      validate_and_transform spikeSeries = false := by
  constructor <;> decide

end TheoremsC5
